import Mathlib

/-!
Verification of the Zenith satellite-tracker client
(`src/frontend/src/App.js`) against its natural-language specification.

The client is a single React component.  Its mutable state is five
`useState` hooks (`userLocation`, `satelliteLocation`, `passes`,
`loading`, `error`); all mutation happens in the completion handlers of
asynchronous operations (geolocation callbacks, the pass fetch, the
position poll).  The embedding models this state as a record
`ViewState`, each completion handler as a case of a `step` function over
an `Event` type, and a session as a fold of `step` over an event trace.
The interval-timer lifecycle of the position poller (`setInterval` /
`clearInterval` plus in-flight axios requests, App.js lines 50-59 and
79-92) is modelled by `PollerSystem`.
-/

/-- A latitude/longitude pair, as stored in `userLocation`
(App.js lines 24, 32, 38: `{ lat, lng }`).  JS numbers are modelled
as rationals. -/
structure Coord where
  lat : Rat
  lng : Rat
deriving DecidableEq, Repr

/-- The satellite-position payload built by `fetchSatelliteLocation` on a
successful poll (App.js lines 82-88): `{ lat, lng, alt, name, timestamp }`,
the timestamp already parsed by `new Date(...)` into epoch milliseconds. -/
structure SatPosition where
  lat : Rat
  lng : Rat
  alt : Rat
  name : String
  timestampMs : Int
deriving DecidableEq, Repr

/-- One element of the pass list returned by `GET /api/passes`
(fields per the rendering code, App.js lines 201-231): ISO timestamp
strings and a visibility score.  The client never inspects these fields
before storing the list, so they stay uninterpreted here. -/
structure Pass where
  start_time : String
  max_time : String
  end_time : String
  visibility_score : Rat
deriving DecidableEq, Repr

/-- The five `useState` hooks of `App` (App.js lines 12-16). -/
structure ViewState where
  userLocation : Option Coord
  satelliteLocation : Option SatPosition
  passes : List Pass
  loading : Bool
  error : Option String
deriving DecidableEq, Repr

/-- The initial state (App.js lines 12-16): `useState(null)`,
`useState(null)`, `useState([])`, `useState(true)`, `useState(null)`. -/
def initialState : ViewState :=
  { userLocation := none
    satelliteLocation := none
    passes := []
    loading := true
    error := none }

/-- The fallback coordinate used when geolocation fails
(App.js lines 32 and 38: `{ lat: 40.7128, lng: -74.006 }`). -/
def fallbackCoord : Coord := { lat := 40.7128, lng := -74.006 }

/-- Error message set by the geolocation error callback (App.js line 29). -/
def geoFailMsg : String :=
  "Failed to get your location. Please enable location access."

/-- Error message set when `navigator.geolocation` is absent
(App.js line 36). -/
def geoUnsupportedMsg : String := "Geolocation is not supported by your browser"

/-- Error message set by the `catch` of `fetchPasses` (App.js line 74). -/
def passErrMsg : String := "Failed to fetch satellite passes. Please try again later."

/-- The asynchronous completions that mutate the component state.  Each
constructor corresponds to one handler in App.js:
`geoOk` = geolocation success callback (lines 22-25);
`geoFail` = geolocation error callback, covering denial and timeout
(lines 26-33); `geoUnsupported` = the `else` branch (lines 35-39);
`passStart` = entry of `fetchPasses` (`setLoading(true)`, line 63);
`passOk` = its success path (lines 70-71);
`passErr` = its `catch` (lines 72-76);
`pollOk` = success path of `fetchSatelliteLocation` (lines 81-88);
`pollErr` = its `catch`, which only logs (lines 89-91). -/
inductive Event where
  | geoOk (lat lng : Rat)
  | geoFail
  | geoUnsupported
  | passStart
  | passOk (data : List Pass)
  | passErr
  | pollOk (p : SatPosition)
  | pollErr
deriving DecidableEq, Repr

/-- The state transition performed by each handler, read off App.js:
each case performs exactly the `set...` calls of the corresponding
handler and nothing else. -/
def step (s : ViewState) (e : Event) : ViewState :=
  match e with
  | .geoOk lat lng => { s with userLocation := some { lat := lat, lng := lng } }
  | .geoFail =>
      { s with error := some geoFailMsg
               userLocation := some fallbackCoord }
  | .geoUnsupported =>
      { s with error := some geoUnsupportedMsg
               userLocation := some fallbackCoord }
  | .passStart => { s with loading := true }
  | .passOk data => { s with passes := data, loading := false }
  | .passErr => { s with error := some passErrMsg, loading := false }
  | .pollOk p => { s with satelliteLocation := some p }
  | .pollErr => s

/-- A session: fold the handlers over an event trace. -/
def run (s : ViewState) (tr : List Event) : ViewState :=
  tr.foldl step s

/-- HTTP requests the client can issue (App.js lines 64-69 and 81). -/
inductive Request where
  | getPasses (lat lon : Rat)
  | getLocation (objectId : String)
deriving DecidableEq, Repr

/-- The requests issued synchronously by a handler.  Only the entry of
`fetchPasses` issues a request from the `Event` alphabet (the
`axios.get` of lines 64-69, with `lat`/`lon` taken from
`userLocation`); position requests are issued by the interval timer,
modelled in `PollerSystem` below.  In particular the `catch` branches
issue nothing: there is no automatic retry. -/
def requestsOf (s : ViewState) (e : Event) : List Request :=
  match e with
  | .passStart =>
      match s.userLocation with
      | some c => [Request.getPasses c.lat c.lng]
      | none => []
  | _ => []

/-- The guard of the pass-fetch effect and of the `fetchSatelliteLocation`
effect (App.js lines 44 and 51: `if (userLocation)`): the downstream
pipeline fires exactly when a location is present. -/
def passesEffectFires (s : ViewState) : Bool :=
  s.userLocation.isSome

/-- The condition under which the loading screen is rendered instead of
the main view (App.js line 113: `if (loading || !userLocation)`). -/
def showsLoadingScreen (s : ViewState) : Bool :=
  s.loading || s.userLocation.isNone

/-!
The position-poller lifecycle (App.js lines 50-59): the effect calls
`fetchSatelliteLocation()` once, registers `setInterval(fetchSatelliteLocation,
5000)`, and its cleanup calls `clearInterval(intervalId)`.  Each
invocation of `fetchSatelliteLocation` puts one axios request in flight;
`clearInterval` stops future ticks but does not abort requests already
in flight, and the `then`-continuation (lines 82-88) calls
`setSatelliteLocation` unconditionally, with no liveness check.
-/

/-- Poller lifecycle state: the component state, whether the interval
timer is registered, and how many position requests are in flight. -/
structure PollerSystem where
  view : ViewState
  intervalActive : Bool
  inFlight : Nat
deriving DecidableEq, Repr

/-- The poller effect runs (App.js lines 51-55): one immediate
`fetchSatelliteLocation()` call plus registration of the interval. -/
def startPoller (sys : PollerSystem) : PollerSystem :=
  { sys with intervalActive := true, inFlight := sys.inFlight + 1 }

/-- The interval fires (App.js line 55): only while registered, and each
firing puts one more position request in flight. -/
def pollerTick (sys : PollerSystem) : PollerSystem :=
  if sys.intervalActive then { sys with inFlight := sys.inFlight + 1 } else sys

/-- The effect cleanup (App.js line 57: `clearInterval(intervalId)`).
It deregisters the interval; requests already in flight are not
aborted (the source has no AbortController / liveness flag). -/
def stopPoller (sys : PollerSystem) : PollerSystem :=
  { sys with intervalActive := false }

/-- An in-flight position request resolves successfully: the
`then`-continuation (App.js lines 82-88) runs `setSatelliteLocation`
unconditionally -- whether or not the interval is still registered. -/
def resolvePollOk (p : SatPosition) (sys : PollerSystem) : PollerSystem :=
  { sys with view := step sys.view (.pollOk p), inFlight := sys.inFlight - 1 }

/-- An in-flight position request fails: the `catch` (App.js lines 89-91)
only logs, so the view is unchanged. -/
def resolvePollErr (sys : PollerSystem) : PollerSystem :=
  { sys with view := step sys.view .pollErr, inFlight := sys.inFlight - 1 }

/-!  Poll-tick result sequences, for the staleness invariant (C4).  -/

/-- The outcome of one poll tick. -/
inductive PollResult where
  | ok (p : SatPosition)
  | err
deriving DecidableEq, Repr

/-- The completion event of a poll tick. -/
def pollEvent : PollResult → Event
  | .ok p => .pollOk p
  | .err => .pollErr

/-- The payload of the most recent successful tick in a result sequence,
if any. -/
def lastSuccess (rs : List PollResult) : Option SatPosition :=
  rs.foldl (fun acc r => match r with | .ok p => some p | .err => acc) none

/-!  Pass-duration rendering (App.js lines 225-229).  -/

/-- JavaScript `Math.round` on an exact rational: round half toward
positive infinity. -/
def jsRound (q : Rat) : Int := Int.floor (q + 1 / 2)

/-- The duration displayed for a pass (App.js lines 225-229):
`Math.round((new Date(pass.end_time) - new Date(pass.start_time)) / 60000)`,
where subtracting two `Date`s yields their difference in milliseconds. -/
def passDurationMinutes (startMs endMs : Int) : Int :=
  jsRound (((endMs - startMs : Int) : Rat) / 60000)

/-!
Display formatters (App.js lines 95-110).  `new Date(timeString)`
yields either a valid timestamp (modelled `some t`, epoch milliseconds)
or an Invalid Date (modelled `none`); `date-fns`'s `format` throws a
RangeError on an Invalid Date and otherwise returns the rendered string
(the rendering itself, external to the repository, is a parameter).
The `try`/`catch` maps the throw to a sentinel string.
-/

/-- `date-fns` `format` applied to a `new Date(timeString)` result:
throws (models as `Except.error`) on an Invalid Date, otherwise renders. -/
def dateFnsFormat (render : Int → String) (d : Option Int) : Except String String :=
  match d with
  | none => Except.error "Invalid time value"
  | some t => Except.ok (render t)

/-- `formatTime` (App.js lines 95-101): `format` inside `try`, with
`catch` returning the sentinel. -/
def formatTime (render : Int → String) (d : Option Int) : String :=
  match dateFnsFormat render d with
  | Except.ok out => out
  | Except.error _ => "Invalid time"

/-- `formatDate` (App.js lines 104-110). -/
def formatDate (render : Int → String) (d : Option Int) : String :=
  match dateFnsFormat render d with
  | Except.ok out => out
  | Except.error _ => "Invalid date"

/-!  ## Claim theorems  -/

/-- Helper: running a sequence of poll completions folds the
last-write-wins update over `satelliteLocation`. -/
theorem run_polls_eq (s : ViewState) (rs : List PollResult) :
    (run s (rs.map pollEvent)).satelliteLocation =
      rs.foldl (fun acc r => match r with | .ok p => some p | .err => acc)
        s.satelliteLocation := by
  induction rs generalizing s with
  | nil => rfl
  | cons r rs ih =>
      cases r with
      | ok p => simpa [run, pollEvent, step] using ih (step s (.pollOk p))
      | err => simpa [run, pollEvent, step] using ih s

/-- Helper: the fold above equals the payload of the last successful
tick when one exists, and the starting value otherwise. -/
theorem foldl_lastSuccess (a : Option SatPosition) (rs : List PollResult) :
    rs.foldl (fun acc r => match r with | .ok p => some p | .err => acc) a =
      (match lastSuccess rs with | some p => some p | none => a) := by
  induction rs generalizing a with
  | nil => rfl
  | cons r rs ih =>
      cases r with
      | ok p =>
          show rs.foldl _ (some p) = _
          rw [ih (some p)]
          have h2 : lastSuccess (PollResult.ok p :: rs) =
              (match lastSuccess rs with | some q => some q | none => some p) := by
            show rs.foldl _ (some p) = _
            exact ih (some p)
          rw [h2]
          cases lastSuccess rs <;> rfl
      | err =>
          show rs.foldl _ a = _
          rw [ih a]
          have h2 : lastSuccess (PollResult.err :: rs) = lastSuccess rs := rfl
          rw [h2]

/-- Concrete satellite position used in counterexample/witness states. -/
def posA : SatPosition :=
  { lat := 10, lng := 20, alt := 420, name := "ISS", timestampMs := 0 }

/-- Concrete satellite position used in counterexample/witness states. -/
def posB : SatPosition :=
  { lat := 51.5, lng := 0, alt := 408, name := "ISS", timestampMs := 1700000000000 }

/-- A poller system with exactly one position request in flight at the
moment the cleanup runs, and no position yet recorded. -/
def inFlightAtStop : PollerSystem :=
  { view := initialState, intervalActive := true, inFlight := 1 }

/-- A view state in which a satellite position has already been observed. -/
def stateWithPos : ViewState :=
  { initialState with satelliteLocation := some posA }

/-- A view state in which the user location has resolved. -/
def locatedState : ViewState :=
  { initialState with userLocation := some fallbackCoord }

/-- C1: evaluation of the code at the failing input.  Stopping the poller
(`clearInterval`, App.js line 57) deregisters the interval -- after it,
ticks are no-ops -- but it does not abort the one request still in
flight, and when that request resolves, the `then`-continuation of
`fetchSatelliteLocation` (App.js lines 82-88) still writes
`satelliteLocation`: the view is mutated from `none` to `some posB`
after `stop()`, contradicting the claimed guarantee. -/
theorem stop_does_not_prevent_inflight_mutation :
    (stopPoller inFlightAtStop).intervalActive = false ∧
    pollerTick (stopPoller inFlightAtStop) = stopPoller inFlightAtStop ∧
    (stopPoller inFlightAtStop).inFlight = 1 ∧
    (stopPoller inFlightAtStop).view.satelliteLocation = none ∧
    (resolvePollOk posB (stopPoller inFlightAtStop)).view.satelliteLocation
      = some posB :=
  ⟨rfl, rfl, rfl, rfl, rfl⟩

/-- C2 counterexample: the claimed invariant `loading = true ↔ location
unresolved` fails on reachable states, and the `loading = false` state is
not terminal.  After the geolocation success callback alone, `location`
is resolved while `loading` is still `true`; and after a completed first
pass fetch, a user-triggered refresh (`fetchPasses` runs
`setLoading(true)`, App.js line 63) sets `loading` back to `true` with
`location` still resolved. -/
theorem loading_iff_unresolved_counterexample :
    ((run initialState [Event.geoOk 1 2]).loading = true ∧
      (run initialState [Event.geoOk 1 2]).userLocation ≠ none) ∧
    ((run initialState [Event.geoOk 1 2, Event.passStart,
        Event.passOk []]).loading = false ∧
      (run initialState [Event.geoOk 1 2, Event.passStart, Event.passOk [],
        Event.passStart]).loading = true ∧
      (run initialState [Event.geoOk 1 2, Event.passStart, Event.passOk [],
        Event.passStart]).userLocation ≠ none) := by
  refine ⟨⟨rfl, by decide⟩, rfl, rfl, by decide⟩

/-- C2 amended: `loading` tracks the pass fetch, not the location.  It
is `true` at session start, is set to `true` by every pass-fetch start,
set to `false` by every pass-fetch completion (success or failure), and
is unchanged by every other event -- in particular location resolution
does not clear it, and a refresh reverts it to `true`. -/
theorem loading_tracks_pass_fetch (s : ViewState) (e : Event) :
    (step s e).loading =
      (match e with
       | .passStart => true
       | .passOk _ => false
       | .passErr => false
       | _ => s.loading) ∧
    initialState.loading = true := by
  cases e <;> exact ⟨rfl, rfl⟩

/-- C3: on every geolocation failure mode -- the error callback (denial
or timeout, App.js lines 26-33) and the unsupported branch (lines
35-39) -- the location is set to the fixed fallback `{40.7128, -74.006}`
and a non-empty degraded-location message is stored; the pipeline is not
blocked (the pass-fetch effect guard holds afterwards), and once the
triggered pass fetch completes -- successfully or not -- `loading` is
`false`, with the fallback location and the degraded message still in
place on the success path. -/
theorem geo_failure_fallback (s : ViewState) (d : List Pass) :
    (step s .geoFail).userLocation = some fallbackCoord ∧
    (step s .geoFail).error = some geoFailMsg ∧
    (step s .geoUnsupported).userLocation = some fallbackCoord ∧
    (step s .geoUnsupported).error = some geoUnsupportedMsg ∧
    geoFailMsg ≠ "" ∧
    geoUnsupportedMsg ≠ "" ∧
    passesEffectFires (step s .geoFail) = true ∧
    passesEffectFires (step s .geoUnsupported) = true ∧
    (run s [.geoFail, .passStart, .passOk d]).loading = false ∧
    (run s [.geoFail, .passStart, .passErr]).loading = false ∧
    (run s [.geoUnsupported, .passStart, .passOk d]).loading = false ∧
    (run s [.geoFail, .passStart, .passOk d]).userLocation = some fallbackCoord ∧
    (run s [.geoFail, .passStart, .passOk d]).error = some geoFailMsg :=
  ⟨rfl, rfl, rfl, rfl, by decide, by decide, rfl, rfl, rfl, rfl, rfl, rfl, rfl⟩

/-- C4: over any sequence of poll-tick outcomes, `satelliteLocation`
ends equal to the payload of the most recent successful tick (or keeps
its starting value if every tick failed), and once a position has been
observed it never reverts to absent. -/
theorem poll_staleness (s : ViewState) (rs : List PollResult) :
    (run s (rs.map pollEvent)).satelliteLocation =
      (match lastSuccess rs with
       | some p => some p
       | none => s.satelliteLocation) ∧
    (s.satelliteLocation ≠ none →
      (run s (rs.map pollEvent)).satelliteLocation ≠ none) := by
  have h := (run_polls_eq s rs).trans (foldl_lastSuccess s.satelliteLocation rs)
  refine ⟨h, fun hne => ?_⟩
  rw [h]
  cases hls : lastSuccess rs with
  | none => exact hne
  | some p => exact Option.some_ne_none p

/-- Witness for C4 at a concrete input: starting from a state that
already holds `posA`, the trace [successful tick with `posB`, failed
tick] ends with `satelliteLocation = some posB`, which is not absent. -/
theorem poll_staleness_witness :
    (run stateWithPos ([PollResult.ok posB, PollResult.err].map pollEvent)).satelliteLocation
        = some posB ∧
    (run stateWithPos ([PollResult.ok posB, PollResult.err].map pollEvent)).satelliteLocation
        ≠ none :=
  ⟨(poll_staleness stateWithPos [PollResult.ok posB, PollResult.err]).1,
   (poll_staleness stateWithPos [PollResult.ok posB, PollResult.err]).2 (by decide)⟩

/-- C5: the `catch` of `fetchPasses` (App.js lines 72-76) leaves
`passes` exactly as it was, stores a non-empty user-facing message in
`error`, and issues no request -- there is no automatic retry. -/
theorem pass_fetch_failure_frame (s : ViewState) :
    (step s .passErr).passes = s.passes ∧
    (step s .passErr).error = some passErrMsg ∧
    passErrMsg ≠ "" ∧
    requestsOf s .passErr = [] :=
  ⟨rfl, rfl, by decide, rfl⟩

/-- C6: when the location has resolved to `c`, starting a pass fetch
issues exactly one request, `GET /api/passes` with `lat = c.lat` and
`lon = c.lng` (App.js lines 64-69), and a successful completion stores
the server's response list wholesale -- the stored `passes` is the
returned sequence itself, with no reordering, filtering or merging
(App.js line 70). -/
theorem pass_fetch_success_wholesale (s : ViewState) (c : Coord) (d : List Pass)
    (h : s.userLocation = some c) :
    requestsOf s .passStart = [Request.getPasses c.lat c.lng] ∧
    (step s (.passOk d)).passes = d := by
  constructor
  · simp [requestsOf, h]
  · rfl

/-- Witness for C6 at a concrete input: a located state issues the
request with the fallback coordinate's components, and storing the
empty response yields the empty pass list. -/
theorem pass_fetch_success_wholesale_witness :
    requestsOf locatedState .passStart
        = [Request.getPasses fallbackCoord.lat fallbackCoord.lng] ∧
    (step locatedState (.passOk [])).passes = [] :=
  pass_fetch_success_wholesale locatedState fallbackCoord [] rfl

/-- C7: for any start timestamp, a pass whose end is exactly 600 seconds
(600000 ms) later renders a duration of 10 minutes, since
`Math.round((end - start) / 60000)` evaluates to `round 10 = 10`. -/
theorem pass_duration_600s_is_10 (startMs : Int) :
    passDurationMinutes startMs (startMs + 600 * 1000) = 10 := by
  unfold passDurationMinutes jsRound
  have h : ((startMs + 600 * 1000 - startMs : Int) : Rat) = 600000 := by
    push_cast
    ring
  rw [h]
  norm_num

/-- C8: the position poll mutates only `satelliteLocation`.  A
successful poll writes the new position and leaves `userLocation`,
`passes`, `loading` and `error` exactly as they were -- so a pass-fetch
error message is never cleared nor set by this path -- and a failed poll
changes nothing at all (App.js lines 79-92). -/
theorem poll_frame_effect (s : ViewState) (p : SatPosition) :
    (step s (.pollOk p)).satelliteLocation = some p ∧
    (step s (.pollOk p)).userLocation = s.userLocation ∧
    (step s (.pollOk p)).passes = s.passes ∧
    (step s (.pollOk p)).loading = s.loading ∧
    (step s (.pollOk p)).error = s.error ∧
    step s .pollErr = s :=
  ⟨rfl, rfl, rfl, rfl, rfl, rfl⟩

/-- C9: both exits of `fetchPasses` end with `setLoading(false)`
(App.js lines 71 and 75), so every pass-fetch completion -- success or
failure -- leaves `loading = false`; and since the fetch only runs once
a location is present, the loading screen (shown iff
`loading || !userLocation`) is gone even when the first fetch fails. -/
theorem pass_fetch_ends_loading (s : ViewState) (d : List Pass) (c : Coord) :
    (step s (.passOk d)).loading = false ∧
    (step s .passErr).loading = false ∧
    (s.userLocation = some c → showsLoadingScreen (step s .passErr) = false) := by
  refine ⟨rfl, rfl, fun h => ?_⟩
  simp [showsLoadingScreen, step, h]

/-- Witness for C9 at a concrete input: in a located state, a failed
pass fetch leaves the loading screen. -/
theorem pass_fetch_ends_loading_witness :
    showsLoadingScreen (step locatedState .passErr) = false :=
  (pass_fetch_ends_loading locatedState [] fallbackCoord).2.2 rfl

/-- C10: the display formatters are total at their interface.  For
every parse outcome of the input string, `formatTime` and `formatDate`
return a string: the rendered result when `new Date` produced a valid
timestamp, and the sentinels `"Invalid time"` / `"Invalid date"` when it
produced an Invalid Date (on which `date-fns` `format` throws, caught by
the `try`/`catch` of App.js lines 95-110). -/
theorem formatters_total (render : Int → String) (d : Option Int) :
    (d = none →
      formatTime render d = "Invalid time" ∧
      formatDate render d = "Invalid date") ∧
    (∀ t : Int, d = some t →
      formatTime render d = render t ∧
      formatDate render d = render t) := by
  constructor
  · rintro rfl
    exact ⟨rfl, rfl⟩
  · rintro t rfl
    exact ⟨rfl, rfl⟩

/-- Witness for C10 at concrete inputs: an unparseable input renders the
sentinels, a parseable one renders through the formatting library. -/
theorem formatters_total_witness :
    formatTime (fun _ => "7:00 PM") none = "Invalid time" ∧
    formatDate (fun _ => "Jan 1") (some 0) = "Jan 1" :=
  ⟨((formatters_total (fun _ => "7:00 PM") none).1 rfl).1,
   ((formatters_total (fun _ => "Jan 1") (some 0)).2 0 rfl).2⟩
